import Mathlib

/-!
# Verification of the APOLLO conversational-agent orchestration core

Shallow embedding of the agent subsystem of the APOLLO repository:

* `TaskTools.create_task` / `TaskTools.update_task` — the tool functions
  (`.specify/specs/module-2-ai-agents/plan.md`, Phase 4.1);
* `execute_tool_call` / `execute_tool_calls` —
  `LifeCoordinator._execute_tool_calls` (plan.md, Phase 4.3), including the
  Python keyword-argument semantics of
  `task_tools.create_task(user_id=user_id, **function_args)`;
* `get_user_tasks` — `ContextBuilder._get_user_tasks` (plan.md, Phase 3.1);
* `format_user_context` / `generate_response_messages` —
  `LifeCoordinator._format_user_context` and the message assembly of
  `generate_response` (plan.md, Phases 2 and 4.3);
* `prepare_history` — the conversation-history preparation of `sendMessage`
  in the frontend chat page;
* spec-modelled definitions for the backend route handler
  `_handle_with_tools` and the SSE stream emitter, whose implementations are
  not part of the available sources.

Machine integers do not occur on the verified paths; ids, lengths and token
counts are modelled as `Nat`.
-/

namespace Apollo

/-- A row of the `tasks` table: id, owning user, title, optional
description, status, creation timestamp (recency order key). -/
structure Task where
  id : Nat
  user_id : Nat
  title : String
  description : Option String
  status : String
  created_at : Nat
deriving Repr, DecidableEq, Inhabited

/-- The `tasks` table, an opaque row store. -/
abbrev TaskStore := List Task

namespace TaskTools

/-- `TaskTools.create_task` (plan.md Phase 4.1): validate
`if not title or len(title) < 3: raise ValueError(...)` (an empty title has
length `< 3`, so the two Python conditions coincide), then insert the row and
return it.  `nextId` models the id assigned by the store to the inserted row.
A raised exception is an `Except.error` carrying `str(e)`. -/
def create_task (store : TaskStore) (nextId : Nat) (user_id : Nat)
    (title : String) (description : Option String) (status : String) :
    Except String (Task × TaskStore) :=
  if title.length < 3 then
    Except.error "Title must be at least 3 characters"
  else
    let t : Task :=
      { id := nextId, user_id := user_id, title := title,
        description := description, status := status, created_at := nextId }
    Except.ok (t, store ++ [t])

/-- The model-supplied `updates` dict of an `update_task` call.  The source
takes `updates: Dict[str, Any]` and passes it verbatim to `.update()` with
no field whitelist, so any column of the row may appear — including the
owning `user_id`. -/
structure TaskUpdates where
  id : Option Nat := none
  user_id : Option Nat := none
  title : Option String := none
  description : Option String := none
  status : Option String := none
  created_at : Option Nat := none
deriving Repr, DecidableEq, Inhabited

/-- Apply an `updates` dict to a row: every present key overwrites its
column, the owner column included. -/
def applyUpdates (t : Task) (u : TaskUpdates) : Task :=
  { id := u.id.getD t.id
    user_id := u.user_id.getD t.user_id
    title := u.title.getD t.title
    description := match u.description with
      | some d => some d
      | none => t.description
    status := u.status.getD t.status
    created_at := u.created_at.getD t.created_at }

/-- `TaskTools.update_task` (plan.md Phase 4.1): first the ownership query
`select * where id = task_id and user_id = user_id`; if it returns no row,
`raise ValueError("Task not found or access denied")`; otherwise run
`update(updates) where id = task_id` — the dict applied verbatim, no
whitelist — and return `response.data[0]`, the first matched row with the
updates applied. -/
def update_task (store : TaskStore) (user_id : Nat) (task_id : Nat)
    (updates : TaskUpdates) : Except String (Task × TaskStore) :=
  let owned := store.filter (fun t => t.id == task_id && t.user_id == user_id)
  if owned.isEmpty then
    Except.error "Task not found or access denied"
  else
    let store2 := store.map
      (fun t => if t.id == task_id then applyUpdates t updates else t)
    let touched := (store.filter (fun t => t.id == task_id)).map
      (fun t => applyUpdates t updates)
    match touched.head? with
    | some t => Except.ok (t, store2)
    | none => Except.error "Failed to update task"

end TaskTools

/-- Arguments the model supplies for a `create_task` request
(`function_args` after `json.loads`).  `forged_user_id` models a `user_id`
key appearing in the argument dict: the dispatch site already passes
`user_id=user_id`, so `**function_args` containing that key raises a
duplicate-keyword `TypeError` before the tool body runs. -/
structure CreateArgs where
  title : String
  description : Option String := none
  status : Option String := none
  forged_user_id : Option Nat := none
deriving Repr, DecidableEq, Inhabited

/-- Arguments the model supplies for an `update_task` request. -/
structure UpdateArgs where
  task_id : Nat
  updates : TaskTools.TaskUpdates
  forged_user_id : Option Nat := none
deriving Repr, DecidableEq, Inhabited

/-- One parsed tool-invocation request from the model response
(`tool_call.function.name` plus parsed arguments). -/
inductive ToolCall where
  | create (args : CreateArgs)
  | update (args : UpdateArgs)
  | unknown (name : String)
deriving Repr, DecidableEq, Inhabited

/-- The tool name a request carries. -/
def ToolCall.name : ToolCall → String
  | .create _ => "create_task"
  | .update _ => "update_task"
  | .unknown n => n

/-- One entry of the `results` list built by `_execute_tool_calls`:
`{"tool": ..., "status": "success"|"error", "result"/"error": ...}`. -/
structure ToolResult where
  tool : String
  status : String
  result : Option Task := none
  errorMsg : Option String := none
deriving Repr, DecidableEq, Inhabited

/-- Executor state: the task store plus the next row id the store assigns. -/
abbrev ExecState := TaskStore × Nat

/-- Whether the argument dict of a request contains a `user_id` key. -/
def hasForgedUserId : ToolCall → Bool
  | .create a => a.forged_user_id.isSome
  | .update a => a.forged_user_id.isSome
  | .unknown _ => false

/-- The `str(TypeError)` produced by Python when `**function_args` repeats
the `user_id` keyword already passed explicitly at the dispatch site. -/
def duplicateKeywordMsg (fn : String) : String :=
  fn ++ "() got multiple values for keyword argument user_id"

/-- The body of the `for tool_call in tool_calls` loop of
`LifeCoordinator._execute_tool_calls` (plan.md Phase 4.3) for a single
request: route on the function name, call the tool with
`user_id=user_id, **function_args` (a `user_id` key in the arguments raises
the duplicate-keyword `TypeError` before any tool code runs), convert any
exception to an error-status result, and report an unknown name without
contacting any tool. -/
def execute_tool_call (user_id : Nat) (st : ExecState) :
    ToolCall → ToolResult × ExecState
  | .create a =>
    if a.forged_user_id.isSome then
      ({ tool := "create_task", status := "error",
         errorMsg := some (duplicateKeywordMsg "create_task") }, st)
    else
      match TaskTools.create_task st.1 st.2 user_id a.title a.description
          (a.status.getD "pending") with
      | Except.ok (t, s2) =>
        ({ tool := "create_task", status := "success", result := some t },
         (s2, st.2 + 1))
      | Except.error e =>
        ({ tool := "create_task", status := "error", errorMsg := some e }, st)
  | .update a =>
    if a.forged_user_id.isSome then
      ({ tool := "update_task", status := "error",
         errorMsg := some (duplicateKeywordMsg "update_task") }, st)
    else
      match TaskTools.update_task st.1 user_id a.task_id a.updates with
      | Except.ok (t, s2) =>
        ({ tool := "update_task", status := "success", result := some t },
         (s2, st.2))
      | Except.error e =>
        ({ tool := "update_task", status := "error", errorMsg := some e }, st)
  | .unknown n =>
    ({ tool := n, status := "error",
       errorMsg := some ("Unknown function: " ++ n) }, st)

/-- `LifeCoordinator._execute_tool_calls` (plan.md Phase 4.3): iterate over
the requests in the order the model listed them, threading the store state,
and append exactly one result per request to `results`. -/
def execute_tool_calls (tool_calls : List ToolCall) (user_id : Nat)
    (st : ExecState) : List ToolResult × ExecState :=
  match tool_calls with
  | [] => ([], st)
  | tc :: rest =>
    let (r, st2) := execute_tool_call user_id st tc
    let (rs, st3) := execute_tool_calls rest user_id st2
    (r :: rs, st3)

/-! ## Context Assembler (`ContextBuilder`, plan.md Phase 3.1) -/

/-- Insert a row into a list already sorted by descending `created_at`. -/
def insertDescByCreated (t : Task) : List Task → List Task
  | [] => [t]
  | x :: xs =>
    if x.created_at ≤ t.created_at then t :: x :: xs
    else x :: insertDescByCreated t xs

/-- The `order("created_at", desc=True)` clause of the store query. -/
def orderByCreatedDesc : List Task → List Task
  | [] => []
  | x :: xs => insertDescByCreated x (orderByCreatedDesc xs)

/-- `ContextBuilder._get_user_tasks` (plan.md Phase 3.1): the query
`select * from tasks where user_id = user_id and status in
("pending", "in_progress") order by created_at desc limit 20`. -/
def get_user_tasks (store : TaskStore) (user_id : Nat) : List Task :=
  (orderByCreatedDesc (store.filter (fun t =>
    t.user_id == user_id &&
      (t.status == "pending" || t.status == "in_progress")))).take 20

/-- The token estimate the plan uses for context text
(`len(str(context)) * 0.5`, plan.md Phase 3 checkpoint): half a token per
character, rounded down. -/
def estimate_tokens (text : String) : Nat := text.length / 2

/-- `LifeCoordinator._format_user_context` (plan.md Phase 2): with no
tasks return the explicit marker `"User has no active tasks."`, otherwise a
`Current Tasks:` header followed by one `- title (status: s)` line per
task joined by newlines. -/
def format_user_context (tasks : List Task) : String :=
  if tasks.isEmpty then "User has no active tasks."
  else
    "Current Tasks:\n" ++ String.intercalate "\n"
      (tasks.map (fun t => "- " ++ t.title ++ " (status: " ++ t.status ++ ")"))

/-- A chat message as passed to the model provider: role and content. -/
structure ChatMsg where
  role : String
  content : String
deriving Repr, DecidableEq, Inhabited

/-- The message-list assembly of `LifeCoordinator.generate_response`
(plan.md Phase 4.3): `full_messages = [system prompt, system message holding
_format_user_context(build_context(user_id))] + messages`, where
`build_context` supplies the tasks of `_get_user_tasks`.  The context system
message is appended unconditionally. -/
def generate_response_messages (store : TaskStore) (user_id : Nat)
    (systemPrompt : String) (messages : List ChatMsg) : List ChatMsg :=
  let tasks := get_user_tasks store user_id
  ⟨"system", systemPrompt⟩ :: ⟨"system", format_user_context tasks⟩ :: messages

/-! ## Frontend history preparation (`sendMessage`, chat page) -/

/-- Python/JS `slice(-n)`: the last `n` elements (all of them when the list
is shorter). -/
def sliceLast (n : Nat) (l : List ChatMsg) : List ChatMsg :=
  l.drop (l.length - n)

/-- JS `content.trim()`, modelled over the character list: strip leading
and trailing whitespace. -/
def trimmedContent (s : String) : List Char :=
  ((s.data.dropWhile Char.isWhitespace).reverse.dropWhile
    Char.isWhitespace).reverse

/-- The two `filter` steps of `sendMessage`: keep messages whose role is
`user` or `assistant` and whose trimmed content is non-empty. -/
def history_filter (messages : List ChatMsg) : List ChatMsg :=
  (messages.filter (fun m => m.role == "user" || m.role == "assistant")).filter
    (fun m => 0 < (trimmedContent m.content).length)

/-- The `conversationHistory` computation of `sendMessage` in the frontend
chat page: filter by role, filter out empty-content messages, map to
`{role, content}` (the identity here), then `slice(-10)`. -/
def prepare_history (messages : List ChatMsg) : List ChatMsg :=
  sliceLast 10 (history_filter messages)

/-! ## Spec-modelled turn pipeline and stream emitter -/

/-- The turn states of the orchestrator state machine (spec 4.5). -/
inductive TurnState where
  | RECEIVED
  | CONTEXT_BUILT
  | MODEL_CALLED
  | TOOLS_REQUESTED
  | TOOLS_EXECUTED
  | MODEL_RESUMED
  | FINALIZED
  | PERSISTED
  | FAILED
deriving Repr, DecidableEq, Inhabited

/-- A row of the Conversation Store. -/
structure StoredMsg where
  conversation_id : Nat
  role : String
  content : String
deriving Repr, DecidableEq, Inhabited

/-- A failure oracle for one turn: which of the turn steps fail.  Each flag
marks the step itself (persisting the user message, assembling context,
first model call, tool execution, second model call, persisting the
assistant message). -/
structure StepFailures where
  persist_user : Bool
  assemble_context : Bool
  model_call : Bool
  exec_tools : Bool
  model_resume : Bool
  persist_assistant : Bool
deriving Repr, DecidableEq, Inhabited

/-- Modelled from the spec: the backend route handler `_handle_with_tools`
of `backend/app/routes/chat.py` is not among the available sources (only
`MILESTONE_FIX.md` documents it: save the user message to the store before
the AI call, run the agent with tools, save the response after completion).
The turn visits states in order; the inbound user message is appended to
the store first, then context is assembled (reaching `CONTEXT_BUILT`), then
the model/tool steps run; a failing step moves to `FAILED` and later steps
do not run.  Returns the list of states visited and the final store. -/
def handle_with_tools (conv : Nat) (userMsg assistantText : String)
    (store : List StoredMsg) (f : StepFailures) :
    List TurnState × List StoredMsg :=
  if f.persist_user then ([.RECEIVED, .FAILED], store)
  else
    let store1 := store ++ [⟨conv, "user", userMsg⟩]
    if f.assemble_context then ([.RECEIVED, .FAILED], store1)
    else if f.model_call then
      ([.RECEIVED, .CONTEXT_BUILT, .FAILED], store1)
    else if f.exec_tools then
      ([.RECEIVED, .CONTEXT_BUILT, .MODEL_CALLED, .TOOLS_REQUESTED, .FAILED],
       store1)
    else if f.model_resume then
      ([.RECEIVED, .CONTEXT_BUILT, .MODEL_CALLED, .TOOLS_REQUESTED,
        .TOOLS_EXECUTED, .FAILED], store1)
    else if f.persist_assistant then
      ([.RECEIVED, .CONTEXT_BUILT, .MODEL_CALLED, .TOOLS_REQUESTED,
        .TOOLS_EXECUTED, .MODEL_RESUMED, .FINALIZED, .FAILED], store1)
    else
      ([.RECEIVED, .CONTEXT_BUILT, .MODEL_CALLED, .TOOLS_REQUESTED,
        .TOOLS_EXECUTED, .MODEL_RESUMED, .FINALIZED, .PERSISTED],
       store1 ++ [⟨conv, "assistant", assistantText⟩])

/-- A typed event of the outbound stream protocol (spec 6):
`{chunk} | {progress} | {done} | {error}`. -/
inductive StreamEvent where
  | chunk (content : String)
  | progress (content : String)
  | done
  | error (content : String)
deriving Repr, DecidableEq, Inhabited

/-- Whether an event is terminal (`done` or `error`). -/
def StreamEvent.isTerminal : StreamEvent → Bool
  | .done => true
  | .error _ => true
  | _ => false

/-- A mid-turn emission: `true` marks a text chunk, `false` a progress
note; never a terminal event. -/
def midEvent : Bool × String → StreamEvent
  | (true, s) => StreamEvent.chunk s
  | (false, s) => StreamEvent.progress s

/-- Modelled from the spec: the SSE generator of `backend/app/routes/chat.py`
(the `generate_stream` async generator) is not among the available sources
in its final form; spec 4.6 describes it.  The emitter yields one event per
mid-turn emission as the orchestrator progresses; when the turn completes it
yields a single `done`, and when the turn fails after `k` emissions it stops
the body there and yields a single `error`. -/
def emit_stream (body : List (Bool × String)) (failAfter : Option Nat)
    (errMsg : String) : List StreamEvent :=
  match failAfter with
  | none => body.map midEvent ++ [StreamEvent.done]
  | some k => (body.take k).map midEvent ++ [StreamEvent.error errMsg]

/-- Overwrite the `user_id` key of a request argument dict (`none` removes
it); used to compare runs that differ only in the forged identity value. -/
def setForged : ToolCall → Option Nat → ToolCall
  | .create a, v => .create { a with forged_user_id := v }
  | .update a, v => .update { a with forged_user_id := v }
  | .unknown n, _ => .unknown n

/-! ## Helper lemmas -/

/-- Each result entry is tagged with the requested function name. -/
theorem execute_tool_call_tool (uid : Nat) (st : ExecState) (tc : ToolCall) :
    (execute_tool_call uid st tc).1.tool = tc.name := by
  cases tc with
  | create a =>
    simp only [execute_tool_call, ToolCall.name]
    split
    · rfl
    · split <;> rfl
  | update a =>
    simp only [execute_tool_call, ToolCall.name]
    split
    · rfl
    · split <;> rfl
  | unknown n => rfl

/-- Inserting into a sorted list only adds the inserted element. -/
theorem mem_insertDescByCreated {t x : Task} {l : List Task}
    (h : x ∈ insertDescByCreated t l) : x = t ∨ x ∈ l := by
  induction l with
  | nil => simpa [insertDescByCreated] using h
  | cons y ys ih =>
    simp only [insertDescByCreated] at h
    split at h
    · exact (List.mem_cons.1 h).imp id id
    · rcases List.mem_cons.1 h with h1 | h1
      · exact Or.inr (h1 ▸ List.mem_cons_self y ys)
      · exact (ih h1).imp id (List.mem_cons_of_mem y)

/-- Sorting by recency does not invent elements. -/
theorem mem_orderByCreatedDesc {x : Task} {l : List Task}
    (h : x ∈ orderByCreatedDesc l) : x ∈ l := by
  induction l with
  | nil => simp [orderByCreatedDesc] at h
  | cons y ys ih =>
    simp only [orderByCreatedDesc] at h
    rcases mem_insertDescByCreated h with h1 | h1
    · exact h1 ▸ List.mem_cons_self y ys
    · exact List.mem_cons_of_mem y (ih h1)

/-- A mid-turn emission is never a terminal event. -/
theorem midEvent_isTerminal (p : Bool × String) :
    (midEvent p).isTerminal = false := by
  obtain ⟨b, s⟩ := p
  cases b <;> rfl

/-! ## Claim theorems -/

/-- Claim C10: when the argument dict of a tool request itself contains the
key `user_id`, dispatch passes the authenticated identity alongside the
unpacked arguments, so the call fails with a duplicate-keyword error that is
caught and turned into an error-status result carrying the duplicate-keyword
message; the store state is unchanged (no database operation), and the
forged identity value has no influence on the outcome. -/
theorem C10_duplicate_keyword (uid : Nat) (st : ExecState) (tc : ToolCall)
    (h : hasForgedUserId tc = true) :
    (execute_tool_call uid st tc).1.status = "error" ∧
    (execute_tool_call uid st tc).1.errorMsg =
      some (duplicateKeywordMsg tc.name) ∧
    (execute_tool_call uid st tc).2 = st ∧
    ∀ v : Nat, execute_tool_call uid st (setForged tc (some v)) =
      execute_tool_call uid st tc := by
  cases tc with
  | create a =>
    simp only [hasForgedUserId] at h
    refine ⟨?_, ?_, ?_, ?_⟩ <;>
      simp [execute_tool_call, setForged, ToolCall.name, h]
  | update a =>
    simp only [hasForgedUserId] at h
    refine ⟨?_, ?_, ?_, ?_⟩ <;>
      simp [execute_tool_call, setForged, ToolCall.name, h]
  | unknown n => simp [hasForgedUserId] at h

/-- Witness for C10 at a concrete forged request. -/
theorem C10_duplicate_keyword_witness :
    (execute_tool_call 1 ([], 0)
        (ToolCall.create { title := "Buy milk", forged_user_id := some 99 })).1.status
        = "error" ∧
    (execute_tool_call 1 ([], 0)
        (ToolCall.create { title := "Buy milk", forged_user_id := some 99 })).1.errorMsg
        = some (duplicateKeywordMsg
            (ToolCall.create { title := "Buy milk", forged_user_id := some 99 }).name) ∧
    (execute_tool_call 1 ([], 0)
        (ToolCall.create { title := "Buy milk", forged_user_id := some 99 })).2
        = ([], 0) ∧
    ∀ v : Nat, execute_tool_call 1 ([], 0)
        (setForged (ToolCall.create { title := "Buy milk", forged_user_id := some 99 }) (some v)) =
      execute_tool_call 1 ([], 0)
        (ToolCall.create { title := "Buy milk", forged_user_id := some 99 }) :=
  C10_duplicate_keyword 1 ([], 0)
    (ToolCall.create { title := "Buy milk", forged_user_id := some 99 }) (by decide)

/-- Claim C8: for a `create_task` request whose title is shorter than 3
characters, validation fires before the store insert: the Executor returns
an error-status result carrying the validation message and the store state
is unchanged (no entity inserted); the exception never escapes the
Executor. -/
theorem C8_validation_before_side_effect (uid : Nat) (st : ExecState)
    (a : CreateArgs) (hbad : a.title.length < 3)
    (hnof : a.forged_user_id = none) :
    (execute_tool_call uid st (ToolCall.create a)).1.status = "error" ∧
    (execute_tool_call uid st (ToolCall.create a)).1.errorMsg =
      some "Title must be at least 3 characters" ∧
    (execute_tool_call uid st (ToolCall.create a)).2 = st := by
  simp [execute_tool_call, TaskTools.create_task, hnof, hbad]

/-- Witness for C8 at the concrete two-character title `"hi"`. -/
theorem C8_validation_before_side_effect_witness :
    (execute_tool_call 1 ([], 5) (ToolCall.create { title := "hi" })).1.status
      = "error" ∧
    (execute_tool_call 1 ([], 5) (ToolCall.create { title := "hi" })).1.errorMsg
      = some "Title must be at least 3 characters" ∧
    (execute_tool_call 1 ([], 5) (ToolCall.create { title := "hi" })).2
      = ([], 5) :=
  C8_validation_before_side_effect 1 ([], 5) { title := "hi" }
    (by decide) (by decide)

/-- Claim C2: when the target task exists but every row with the target id
is owned by a different user than the authenticated one, `update_task`
returns the error `"Task not found or access denied"` — never a success —
the Executor classifies the request's result as an error carrying that same
not-found message, and the result is exactly the result obtained on a store
from which the target entity is absent, so the mismatch is
indistinguishable from the entity not existing. -/
theorem C2_ownership_not_found (st : ExecState) (uid tid : Nat)
    (u : TaskTools.TaskUpdates)
    (hexist : ∃ t ∈ st.1, t.id = tid)
    (hmis : ∀ t ∈ st.1, t.id = tid → t.user_id ≠ uid) :
    TaskTools.update_task st.1 uid tid u =
      Except.error "Task not found or access denied" ∧
    TaskTools.update_task st.1 uid tid u =
      TaskTools.update_task (st.1.filter (fun s => !(s.id == tid))) uid tid u ∧
    (execute_tool_call uid st (ToolCall.update ⟨tid, u, none⟩)).1.status =
      "error" ∧
    (execute_tool_call uid st (ToolCall.update ⟨tid, u, none⟩)).1.errorMsg =
      some "Task not found or access denied" := by
  obtain ⟨t0, ht0, hid0⟩ := hexist
  have hfilter : st.1.filter (fun t => t.id == tid && t.user_id == uid) = [] := by
    refine List.filter_eq_nil_iff.2 ?_
    intro t ht
    have := hmis t ht
    by_cases hid : t.id = tid
    · have hne := this hid
      simp [hid, hne]
    · simp [hid]
  have hfilter2 : (st.1.filter (fun s => !(s.id == tid))).filter
      (fun t => t.id == tid && t.user_id == uid) = [] := by
    refine List.filter_eq_nil_iff.2 ?_
    intro t ht
    have := (List.mem_filter.1 ht).2
    simp only [Bool.not_eq_true', beq_eq_false_iff_ne, ne_eq] at this
    simp [this]
  have herr : TaskTools.update_task st.1 uid tid u =
      Except.error "Task not found or access denied" := by
    simp [TaskTools.update_task, hfilter]
  refine ⟨herr, ?_, ?_, ?_⟩
  · simp [TaskTools.update_task, hfilter, hfilter2]
  · simp [execute_tool_call, herr]
  · simp [execute_tool_call, herr]

/-- Witness for C2: a store holding one task owned by user 2, updated by
authenticated user 1. -/
theorem C2_ownership_not_found_witness :
    TaskTools.update_task [⟨7, 2, "other users task", none, "pending", 0⟩] 1 7
        { status := some "completed" } =
      Except.error "Task not found or access denied" ∧
    TaskTools.update_task [⟨7, 2, "other users task", none, "pending", 0⟩] 1 7
        { status := some "completed" } =
      TaskTools.update_task
        (([⟨7, 2, "other users task", none, "pending", 0⟩] : TaskStore).filter
          (fun s => !(s.id == 7))) 1 7 { status := some "completed" } ∧
    (execute_tool_call 1 ([⟨7, 2, "other users task", none, "pending", 0⟩], 8)
        (ToolCall.update ⟨7, { status := some "completed" }, none⟩)).1.status =
      "error" ∧
    (execute_tool_call 1 ([⟨7, 2, "other users task", none, "pending", 0⟩], 8)
        (ToolCall.update ⟨7, { status := some "completed" }, none⟩)).1.errorMsg =
      some "Task not found or access denied" :=
  C2_ownership_not_found ([⟨7, 2, "other users task", none, "pending", 0⟩], 8)
    1 7 { status := some "completed" } (by decide) (by decide)

/-- Claim C4: `_execute_tool_calls` collects exactly one result per request
(the result list has the length of the request list) and the `i`-th result
reports the `i`-th requested tool, i.e. results are handed back in the
original request order; the requests are threaded through the store state
sequentially in that same order by definition of the loop. -/
theorem C4_results_in_request_order (tcs : List ToolCall) (uid : Nat)
    (st : ExecState) :
    (execute_tool_calls tcs uid st).1.length = tcs.length ∧
    ∀ i, i < tcs.length →
      ((execute_tool_calls tcs uid st).1.getD i default).tool =
        (tcs.getD i default).name := by
  induction tcs generalizing st with
  | nil => exact ⟨rfl, fun i hi => absurd hi (Nat.not_lt_zero i)⟩
  | cons tc rest ih =>
    refine ⟨?_, ?_⟩
    · simp [execute_tool_calls, (ih (execute_tool_call uid st tc).2).1]
    · intro i hi
      cases i with
      | zero =>
        simpa [execute_tool_calls] using
          execute_tool_call_tool uid st tc
      | succ j =>
        have hj : j < rest.length := Nat.lt_of_succ_lt_succ hi
        simpa [execute_tool_calls] using
          (ih (execute_tool_call uid st tc).2).2 j hj

/-- Claim C1 as stated is false on the code in two ways.  First, an
identity-aliasing top-level argument field is not ignored/stripped before
dispatch: for two concrete requests differing only in a forged `user_id`
argument, the forged one yields an error-status result and no executed
operation (the store stays empty) while the clean one succeeds, so the two
runs are not equal.  Second, the dispatched operation does not use only the
authenticated identity: `update_task` applies the model-supplied `updates`
dict verbatim with no whitelist, so a `user_id` key nested inside `updates`
passes the ownership check (no top-level key, hence no duplicate-keyword
error), the call succeeds, and the row's owner is rewritten to the
argument-supplied identity 99 — two requests differing only in that nested
forged identity leave different stores. -/
theorem C1_counterexample :
    (execute_tool_call 1 ([], 0)
        (ToolCall.create { title := "Buy milk", forged_user_id := some 99 })).1.status
      = "error" ∧
    (execute_tool_call 1 ([], 0)
        (ToolCall.create { title := "Buy milk" })).1.status = "success" ∧
    (execute_tool_call 1 ([], 0)
        (ToolCall.create { title := "Buy milk", forged_user_id := some 99 })).2.1
      = [] ∧
    execute_tool_call 1 ([], 0)
        (ToolCall.create { title := "Buy milk", forged_user_id := some 99 }) ≠
      execute_tool_call 1 ([], 0) (ToolCall.create { title := "Buy milk" }) ∧
    (execute_tool_call 1 ([⟨7, 1, "my task", none, "pending", 0⟩], 8)
        (ToolCall.update ⟨7, { user_id := some 99 }, none⟩)).1.status
      = "success" ∧
    (execute_tool_call 1 ([⟨7, 1, "my task", none, "pending", 0⟩], 8)
        (ToolCall.update ⟨7, { user_id := some 99 }, none⟩)).2.1.map
        (fun t => t.user_id) = [99] ∧
    (execute_tool_call 1 ([⟨7, 1, "my task", none, "pending", 0⟩], 8)
        (ToolCall.update ⟨7, { user_id := some 99 }, none⟩)).2.1 ≠
      (execute_tool_call 1 ([⟨7, 1, "my task", none, "pending", 0⟩], 8)
        (ToolCall.update ⟨7, {}, none⟩)).2.1 := by
  decide

/-- Claim C1, amended to what survives both counterexamples: the
*authorization decision* uses only the out-of-band authenticated identity —
whether `update_task` fails the ownership check is independent of the
model-supplied `updates` payload; a request carrying a top-level forged
`user_id` argument produces a result and state independent of the forged
value and performs no store operation at all; and a create dispatch targets
only the authenticated user — its owner column afterwards is the owner
column before, possibly extended by the authenticated identity.  (No such
guarantee holds for the *dispatched update operation*: the unwhitelisted
`updates` dict can rewrite the owner, as the counterexample shows.) -/
theorem C1_identity_injection (uid : Nat) (st : ExecState) (tc : ToolCall)
    (v1 v2 : Nat) (a : CreateArgs) (tid : Nat)
    (u1 u2 : TaskTools.TaskUpdates) :
    execute_tool_call uid st (setForged tc (some v1)) =
      execute_tool_call uid st (setForged tc (some v2)) ∧
    (execute_tool_call uid st (setForged tc (some v1))).2 = st ∧
    ((execute_tool_call uid st (ToolCall.create a)).2.1.map
        (fun t => t.user_id) = st.1.map (fun t => t.user_id) ∨
      (execute_tool_call uid st (ToolCall.create a)).2.1.map
        (fun t => t.user_id) = st.1.map (fun t => t.user_id) ++ [uid]) ∧
    (TaskTools.update_task st.1 uid tid u1 =
        Except.error "Task not found or access denied" ↔
      TaskTools.update_task st.1 uid tid u2 =
        Except.error "Task not found or access denied") := by
  refine ⟨?_, ?_, ?_, ?_⟩
  · cases tc <;> rfl
  · cases tc <;> rfl
  · cases hf : a.forged_user_id with
    | some v => left; simp [execute_tool_call, hf]
    | none =>
      simp only [execute_tool_call, hf, Option.isSome_none,
        Bool.false_eq_true, if_false, TaskTools.create_task]
      by_cases hlen : a.title.length < 3
      · left; simp [hlen]
      · right; simp [hlen]
  · cases howned : (st.1.filter
        (fun t => t.id == tid && t.user_id == uid)).isEmpty with
    | true => simp [TaskTools.update_task, howned]
    | false =>
      have key : ∀ u : TaskTools.TaskUpdates,
          TaskTools.update_task st.1 uid tid u ≠
            Except.error "Task not found or access denied" := by
        intro u
        simp only [TaskTools.update_task, howned, Bool.false_eq_true,
          if_false, List.head?_map]
        cases hh : (st.1.filter (fun t => t.id == tid)).head? <;>
          simp [hh]
      simp [key u1, key u2]

/-- Witness for the C1 amended theorem at concrete inputs. -/
theorem C1_identity_injection_witness :
    execute_tool_call 1 ([], 0)
        (setForged (ToolCall.create { title := "Buy milk" }) (some 99)) =
      execute_tool_call 1 ([], 0)
        (setForged (ToolCall.create { title := "Buy milk" }) (some 5)) ∧
    (execute_tool_call 1 ([], 0)
        (setForged (ToolCall.create { title := "Buy milk" }) (some 99))).2 = ([], 0) ∧
    ((execute_tool_call 1 ([], 0)
          (ToolCall.create { title := "Buy milk" })).2.1.map (fun t => t.user_id) =
        ([] : TaskStore).map (fun t => t.user_id) ∨
      (execute_tool_call 1 ([], 0)
          (ToolCall.create { title := "Buy milk" })).2.1.map (fun t => t.user_id) =
        ([] : TaskStore).map (fun t => t.user_id) ++ [1]) ∧
    (TaskTools.update_task ([] : TaskStore) 1 7 { user_id := some 99 } =
        Except.error "Task not found or access denied" ↔
      TaskTools.update_task ([] : TaskStore) 1 7 { status := some "completed" } =
        Except.error "Task not found or access denied") :=
  C1_identity_injection 1 ([], 0) (ToolCall.create { title := "Buy milk" }) 99 5
    { title := "Buy milk" } 7 { user_id := some 99 } { status := some "completed" }

set_option maxRecDepth 4096 in
/-- Claim C3 as stated is false on the code: `_get_user_tasks` applies a
fixed `limit(20)` and never consults a token estimator or a budget, so for
the concrete store holding one pending task with a 100-character title and
a supplied budget of 10 tokens, the returned snapshot costs 67 estimated
tokens (at the plan's half-token-per-character estimate), exceeding the
budget. -/
theorem C3_counterexample :
    10 < estimate_tokens (format_user_context (get_user_tasks
      [⟨1, 1, String.mk (List.replicate 100 'x'), none, "pending", 0⟩] 1)) := by
  decide

/-- Claim C3, amended: the snapshot the context builder returns is bounded
by entity count, not token cost — it holds at most the 20 most recent
matching tasks, each owned by the queried user and in an active status. -/
theorem C3_count_bound (store : TaskStore) (uid : Nat) :
    (get_user_tasks store uid).length ≤ 20 ∧
    ∀ t, t ∈ get_user_tasks store uid →
      t.user_id = uid ∧ (t.status = "pending" ∨ t.status = "in_progress") := by
  constructor
  · exact List.length_take_le 20 _
  · intro t ht
    have h1 := List.take_subset 20 _ ht
    have h2 := mem_orderByCreatedDesc h1
    have h3 := (List.mem_filter.1 h2).2
    simp only [Bool.and_eq_true, Bool.or_eq_true, beq_iff_eq] at h3
    exact h3

/-- Witness for the C3 amended theorem at a concrete store. -/
theorem C3_count_bound_witness :
    (get_user_tasks [⟨1, 1, "Buy milk", none, "pending", 0⟩] 1).length ≤ 20 ∧
    ∀ t, t ∈ get_user_tasks [⟨1, 1, "Buy milk", none, "pending", 0⟩] 1 →
      t.user_id = 1 ∧ (t.status = "pending" ∨ t.status = "in_progress") :=
  C3_count_bound [⟨1, 1, "Buy milk", none, "pending", 0⟩] 1

/-- Witness for C4 on a concrete turn with two tool requests. -/
theorem C4_results_in_request_order_witness :
    (execute_tool_calls [ToolCall.create { title := "abc" },
        ToolCall.unknown "delete_task"] 1 ([], 0)).1.length =
      ([ToolCall.create { title := "abc" },
        ToolCall.unknown "delete_task"] : List ToolCall).length ∧
    ∀ i, i < ([ToolCall.create { title := "abc" },
        ToolCall.unknown "delete_task"] : List ToolCall).length →
      ((execute_tool_calls [ToolCall.create { title := "abc" },
          ToolCall.unknown "delete_task"] 1 ([], 0)).1.getD i default).tool =
        (([ToolCall.create { title := "abc" },
          ToolCall.unknown "delete_task"] : List ToolCall).getD i default).name :=
  C4_results_in_request_order
    [ToolCall.create { title := "abc" }, ToolCall.unknown "delete_task"] 1 ([], 0)

/-- Claim C7: when zero entities are available for the user (the task query
returns the empty list), the assembled model input still contains an
explicit context system message carrying the marker
`"User has no active tasks."` — the full message list is the system prompt,
then the marker message, then the conversation — so the context field is
never omitted silently. -/
theorem C7_empty_context_marker (store : TaskStore) (uid : Nat)
    (sp : String) (msgs : List ChatMsg)
    (h : get_user_tasks store uid = []) :
    generate_response_messages store uid sp msgs =
      ⟨"system", sp⟩ :: ⟨"system", "User has no active tasks."⟩ :: msgs ∧
    (⟨"system", "User has no active tasks."⟩ : ChatMsg) ∈
      generate_response_messages store uid sp msgs := by
  have h2 : generate_response_messages store uid sp msgs =
      ⟨"system", sp⟩ :: ⟨"system", "User has no active tasks."⟩ :: msgs := by
    simp [generate_response_messages, h, format_user_context]
  exact ⟨h2, by rw [h2]; exact List.mem_cons_of_mem _ (List.mem_cons_self _ _)⟩

/-- Witness for C7: a user with an empty task store. -/
theorem C7_empty_context_marker_witness :
    generate_response_messages [] 1 "SYS" [⟨"user", "hello"⟩] =
      ⟨"system", "SYS"⟩ :: ⟨"system", "User has no active tasks."⟩ ::
        [⟨"user", "hello"⟩] ∧
    (⟨"system", "User has no active tasks."⟩ : ChatMsg) ∈
      generate_response_messages [] 1 "SYS" [⟨"user", "hello"⟩] :=
  C7_empty_context_marker [] 1 "SYS" [⟨"user", "hello"⟩] (by decide)

/-- Claim C9 as stated is false on the code: `sendMessage` filters out
messages with empty trimmed content before applying `slice(-10)`, so a
history of length 1 holding one empty assistant message hands the model 0
entries, not `min(1, 10) = 1`. -/
theorem C9_counterexample :
    (prepare_history [⟨"assistant", ""⟩]).length = 0 ∧
    min ([(⟨"assistant", ""⟩ : ChatMsg)] : List ChatMsg).length 10 = 1 := by
  decide

/-- Claim C9, amended: the window is applied to the filtered history (role
`user` or `assistant`, non-empty trimmed content): the model receives
exactly `min(f, 10)` entries where `f` is the filtered length — hence never
more than 10 — and they are the most recent filtered entries in their
original order (a suffix of the filtered history). -/
theorem C9_window_bound (messages : List ChatMsg) :
    (prepare_history messages).length =
      min (history_filter messages).length 10 ∧
    (prepare_history messages).length ≤ 10 ∧
    ∃ dropped, dropped ++ prepare_history messages = history_filter messages := by
  have hlen : (prepare_history messages).length =
      min (history_filter messages).length 10 := by
    simp only [prepare_history, sliceLast, List.length_drop]
    omega
  refine ⟨hlen, ?_, ?_⟩
  · rw [hlen]; exact Nat.min_le_right _ _
  · exact ⟨(history_filter messages).take ((history_filter messages).length - 10),
      List.take_append_drop _ _⟩

/-- Witness for the C9 amended theorem on a concrete history. -/
theorem C9_window_bound_witness :
    (prepare_history [⟨"user", "hello"⟩, ⟨"assistant", ""⟩]).length =
      min (history_filter [⟨"user", "hello"⟩, ⟨"assistant", ""⟩]).length 10 ∧
    (prepare_history [⟨"user", "hello"⟩, ⟨"assistant", ""⟩]).length ≤ 10 ∧
    ∃ dropped, dropped ++ prepare_history [⟨"user", "hello"⟩, ⟨"assistant", ""⟩] =
      history_filter [⟨"user", "hello"⟩, ⟨"assistant", ""⟩] :=
  C9_window_bound [⟨"user", "hello"⟩, ⟨"assistant", ""⟩]

/-- Claim C5: in every turn that reaches `CONTEXT_BUILT`, the inbound user
message is already in the Conversation Store — whatever combination of
later steps (model calls, tool execution, assistant persistence) fails —
because persistence of the user message precedes context assembly. -/
theorem C5_user_message_persisted (conv : Nat) (userMsg atext : String)
    (store : List StoredMsg) (f : StepFailures)
    (h : TurnState.CONTEXT_BUILT ∈ (handle_with_tools conv userMsg atext store f).1) :
    (⟨conv, "user", userMsg⟩ : StoredMsg) ∈
      (handle_with_tools conv userMsg atext store f).2 := by
  obtain ⟨p, a, m, e, r, pa⟩ := f
  cases p <;> cases a <;> cases m <;> cases e <;> cases r <;> cases pa <;>
    simp_all [handle_with_tools]

/-- Witness for C5: a turn whose first model call fails after
`CONTEXT_BUILT` was reached; the user message is in the store. -/
theorem C5_user_message_persisted_witness :
    (⟨1, "user", "hello"⟩ : StoredMsg) ∈
      (handle_with_tools 1 "hello" "resp" []
        ⟨false, false, true, true, true, true⟩).2 :=
  C5_user_message_persisted 1 "hello" "resp" []
    ⟨false, false, true, true, true, true⟩ (by decide)

/-- Claim C6: every emitted event stream of a turn holds exactly one
terminal event (`done` on completion, `error` on failure), the stream is a
front of non-terminal events followed by that terminal event, and hence no
`chunk` or `progress` event follows the terminal one. -/
theorem C6_terminal_exclusive (body : List (Bool × String))
    (failAfter : Option Nat) (errMsg : String) :
    ((emit_stream body failAfter errMsg).filter
      (fun e => e.isTerminal)).length = 1 ∧
    ∃ front t, emit_stream body failAfter errMsg = front ++ [t] ∧
      t.isTerminal = true ∧ ∀ e ∈ front, e.isTerminal = false := by
  have hmap : ∀ (l : List (Bool × String)),
      (l.map midEvent).filter (fun e => e.isTerminal) = [] := by
    intro l
    refine List.filter_eq_nil_iff.2 ?_
    intro e he
    rcases List.mem_map.1 he with ⟨p, hp, rfl⟩
    simp [midEvent_isTerminal]
  have hfront : ∀ (l : List (Bool × String)),
      ∀ e ∈ l.map midEvent, StreamEvent.isTerminal e = false := by
    intro l e he
    rcases List.mem_map.1 he with ⟨p, hp, rfl⟩
    exact midEvent_isTerminal p
  cases failAfter with
  | none =>
    constructor
    · show ((body.map midEvent ++ [StreamEvent.done]).filter
        (fun e => e.isTerminal)).length = 1
      rw [List.filter_append, hmap body]
      rfl
    · exact ⟨body.map midEvent, StreamEvent.done, rfl, rfl, hfront body⟩
  | some k =>
    constructor
    · show (((body.take k).map midEvent ++ [StreamEvent.error errMsg]).filter
        (fun e => e.isTerminal)).length = 1
      rw [List.filter_append, hmap (body.take k)]
      rfl
    · exact ⟨(body.take k).map midEvent, StreamEvent.error errMsg, rfl, rfl,
        hfront (body.take k)⟩

/-- Witness for C6 on a concrete failing turn. -/
theorem C6_terminal_exclusive_witness :
    ((emit_stream [(true, "a"), (false, "p"), (true, "b")] (some 2) "boom").filter
      (fun e => e.isTerminal)).length = 1 ∧
    ∃ front t,
      emit_stream [(true, "a"), (false, "p"), (true, "b")] (some 2) "boom" =
        front ++ [t] ∧
      t.isTerminal = true ∧ ∀ e ∈ front, e.isTerminal = false :=
  C6_terminal_exclusive [(true, "a"), (false, "p"), (true, "b")] (some 2) "boom"

end Apollo
